import Mathlib

/-!
Verification of the ZAFESYS Suite backend (smart-lock sales and installation
management).  The definitions below are a shallow embedding of the Python
source:

* `src/backend/app/api/inventory.py` — the stock-movement ledger
  (`create_inventory_movement`, `adjust_stock`);
* `src/backend/app/crud/installation.py` and
  `src/backend/app/api/routes/tech_app.py` — the installation timer
  (`start_timer`, `stop_timer`) and `confirm_payment`;
* `src/backend/app/api/routes/webhooks.py` — the ElevenLabs webhook lead
  intake (`analyze_conversation`, `calculate_interest_level`,
  `extract_phone_from_text`, `extract_name_from_text`, and the handler
  `elevenlabs_conversation_webhook`).

Database rows become Lean structures, SQL transactions become explicit state
passing (an HTTP error raised before `db.commit()` rolls the transaction
back, which the embedding renders as returning the unchanged state), wall
clock instants become integer seconds, and monetary amounts become rationals.
-/

deriving instance DecidableEq for Except

namespace Zafesys

/-! ## Inventory ledger (`src/backend/app/api/inventory.py`) -/

/-- `movement_type` values of `MovementTypeEnum` in
`src/backend/app/schemas/inventory.py`. -/
inductive MovementType
  | entrada
  | salida
  | ajuste
deriving DecidableEq, Repr

/-- One row of the `inventory_movements` table, restricted to the fields the
ledger logic writes (`quantity`, `stock_before`, `stock_after`). -/
structure MovementRow where
  movement_type : MovementType
  quantity : Int
  stock_before : Int
  stock_after : Int
deriving DecidableEq, Repr

/-- Client errors raised by the inventory endpoints. -/
inductive InvError
  | insufficientStock
deriving DecidableEq, Repr

/-- The slice of database state the inventory endpoints touch: one product's
`stock` column and the append-only movement ledger. -/
structure InvState where
  stock : Int
  ledger : List MovementRow
deriving DecidableEq, Repr

/-- Embedding of `create_inventory_movement` (POST `/inventory/movements`),
`src/backend/app/api/inventory.py` lines 230-269: `entrada` adds
`abs(quantity)`, `salida` subtracts `abs(quantity)` and raises
`"Stock insuficiente"` if the result would be negative, `ajuste` sets the
stock directly to `quantity`; the ledger row records the raw quantity for
`entrada` and `-abs(quantity)` otherwise. -/
def create_inventory_movement (s : InvState) (movement_type : MovementType)
    (quantity : Int) : Except InvError (InvState × MovementRow) :=
  let stock_before := s.stock
  match movement_type with
  | .entrada =>
      let new_stock := stock_before + |quantity|
      let row : MovementRow := ⟨.entrada, quantity, stock_before, new_stock⟩
      .ok (⟨new_stock, s.ledger ++ [row]⟩, row)
  | .salida =>
      let new_stock := stock_before - |quantity|
      if new_stock < 0 then .error .insufficientStock
      else
        let row : MovementRow := ⟨.salida, -|quantity|, stock_before, new_stock⟩
        .ok (⟨new_stock, s.ledger ++ [row]⟩, row)
  | .ajuste =>
      let new_stock := quantity
      let row : MovementRow := ⟨.ajuste, -|quantity|, stock_before, new_stock⟩
      .ok (⟨new_stock, s.ledger ++ [row]⟩, row)

/-- Embedding of `adjust_stock` (POST `/inventory/adjust-stock`),
`src/backend/app/api/inventory.py` lines 288-318: sets stock to `new_stock`
unconditionally and records `quantity = new_stock - stock_before`. -/
def adjust_stock (s : InvState) (new_stock : Int) :
    Except InvError (InvState × MovementRow) :=
  let stock_before := s.stock
  let difference := new_stock - stock_before
  let row : MovementRow := ⟨.ajuste, difference, stock_before, new_stock⟩
  .ok (⟨new_stock, s.ledger ++ [row]⟩, row)

/-- Transaction semantics of the movements endpoint: a raised HTTP error
rolls the request's transaction back, leaving the state unchanged. -/
def runMovement (s : InvState) (movement_type : MovementType) (quantity : Int) :
    InvState :=
  match create_inventory_movement s movement_type quantity with
  | .ok (s2, _) => s2
  | .error _ => s

/-! ## Installation timer (`src/backend/app/crud/installation.py`,
`src/backend/app/api/routes/tech_app.py`) -/

/-- `InstallationStatus` from `src/backend/app/models/installation.py`. -/
inductive InstallationStatus
  | pendiente
  | programada
  | en_camino
  | en_progreso
  | completada
  | cancelada
deriving DecidableEq, Repr

/-- The slice of the `installations` row the timer endpoints touch.  Wall
clock instants (`timer_started_at`, `timer_ended_at`) are integer seconds on
an absolute timeline, which models the timezone-aware datetimes the source
normalises before subtracting. -/
structure Installation where
  technician_id : Option Nat
  status : InstallationStatus
  timer_started_at : Option Int
  timer_ended_at : Option Int
  timer_started_by : Option String
  installation_duration_minutes : Option Int
deriving DecidableEq, Repr

/-- Embedding of `CRUDInstallation.start_timer`
(`src/backend/app/crud/installation.py` lines 166-190): only acts when the
timer is not already running; sets `timer_started_at := now`, clears
`timer_ended_at` and the stored duration, records `started_by`, and moves
`status` to `en_progreso` unless it is already `en_progreso` or
`completada`. -/
def crudStartTimer (now : Int) (started_by : String) (inst : Installation) :
    Installation :=
  if inst.timer_started_at = none ∨ inst.timer_ended_at ≠ none then
    { inst with
        timer_started_at := some now
        timer_ended_at := none
        timer_started_by := some started_by
        installation_duration_minutes := none
        status :=
          if inst.status ≠ .en_progreso ∧ inst.status ≠ .completada then
            .en_progreso
          else inst.status }
  else inst

/-- Embedding of `CRUDInstallation.stop_timer`
(`src/backend/app/crud/installation.py` lines 192-217): only acts when the
timer is running; records `timer_ended_at := now` and stores
`int(delta.total_seconds() / 60)`, i.e. the minute count truncated toward
zero (`Int.tdiv`). -/
def crudStopTimer (now : Int) (inst : Installation) : Installation :=
  if inst.timer_started_at ≠ none ∧ inst.timer_ended_at = none then
    match inst.timer_started_at with
    | some started =>
        { inst with
            timer_ended_at := some now
            installation_duration_minutes := some ((now - started).tdiv 60) }
    | none => inst
  else inst

/-- Errors raised by the tech-app timer endpoints.  `notStarted` is HTTP 400
`"El timer no ha sido iniciado"`, `alreadyStopped` is HTTP 400
`"El timer ya fue detenido"`, `notAuthorized` is HTTP 403, and
`attributeError` is the unhandled Python `AttributeError` (an HTTP 500)
raised while serialising the response: `tech_app.py` line 393 calls
`.value` on `timer_started_by`, which is a plain `String(20)` column
(`models/installation.py` line 100), not an enum. -/
inductive TimerError
  | notAuthorized
  | notStarted
  | alreadyStopped
  | attributeError
deriving DecidableEq, Repr

/-- Embedding of the `start_timer` endpoint
(`src/backend/app/api/routes/tech_app.py` lines 361-415), after the
installation has been fetched (the 404 branch is the absence of the row):
checks the technician owns the installation; when the timer is already
running it writes nothing and tries to serialise the current state, but
the response construction at line 393 evaluates
`timer_status["timer_started_by"].value if timer_status["timer_started_by"]
else None` — `timer_started_by` is a str loaded from a `String(20)` column,
so whenever it is truthy the `.value` access raises `AttributeError`
(and the `TimerStartedBy` name the module imports does not even exist in
`models/installation.py`); only a falsy `timer_started_by` lets the branch
return the current state.  When the timer is not running it delegates to
`crudStartTimer` with `started_by = "technician"` (the response-building
flaw recurs after the commit, but the committed row is the content the
stored-state theorems are about). -/
def start_timer_endpoint (now : Int) (technician_id : Nat)
    (inst : Installation) : Except TimerError Installation :=
  if inst.technician_id ≠ some technician_id then .error .notAuthorized
  else if inst.timer_started_at ≠ none ∧ inst.timer_ended_at = none then
    match inst.timer_started_by with
    | none => .ok inst
    | some s => if s = "" then .ok inst else .error .attributeError
  else .ok (crudStartTimer now "technician" inst)

/-- Embedding of the `stop_timer` endpoint
(`src/backend/app/api/routes/tech_app.py` lines 418-466): 403 when the
technician does not own the installation, 400 when the timer was never
started or already stopped, otherwise delegates to `crudStopTimer`. -/
def stop_timer_endpoint (now : Int) (technician_id : Nat)
    (inst : Installation) : Except TimerError Installation :=
  if inst.technician_id ≠ some technician_id then .error .notAuthorized
  else if inst.timer_started_at = none then .error .notStarted
  else if inst.timer_ended_at ≠ none then .error .alreadyStopped
  else .ok (crudStopTimer now inst)

/-- Transaction semantics of the stop endpoint: an HTTP error raised before
any mutation leaves the installation row unchanged. -/
def runStopTimer (now : Int) (technician_id : Nat) (inst : Installation) :
    Installation :=
  match stop_timer_endpoint now technician_id inst with
  | .ok i => i
  | .error _ => inst

/-! ## Payment confirmation (`src/backend/app/api/routes/tech_app.py`) -/

/-- `PaymentStatus` from `src/backend/app/models/installation.py`. -/
inductive PaymentStatus
  | pendiente
  | parcial
  | pagado
deriving DecidableEq, Repr

/-- `PaymentMethod` from `src/backend/app/models/installation.py`. -/
inductive PaymentMethod
  | efectivo
  | transferencia
  | tarjeta
  | nequi
  | daviplata
deriving DecidableEq, Repr

/-- `PaymentMethod(request.method)`: Python's enum constructor, which raises
`ValueError` (here `none`) on any string that is not one of the values. -/
def parsePaymentMethod (s : String) : Option PaymentMethod :=
  if s = "efectivo" then some .efectivo
  else if s = "transferencia" then some .transferencia
  else if s = "tarjeta" then some .tarjeta
  else if s = "nequi" then some .nequi
  else if s = "daviplata" then some .daviplata
  else none

/-- The payment slice of an `installations` row.  Monetary amounts are
rationals; `amount_paid` is nullable in the schema (`default=0`), matching
the source's `float(installation.amount_paid or 0)`. -/
structure PaymentState where
  amount_paid : Option ℚ
  total_price : ℚ
  payment_status : PaymentStatus
  payment_method : Option PaymentMethod
deriving DecidableEq, Repr

/-- Embedding of the `confirm_payment` endpoint
(`src/backend/app/api/routes/tech_app.py` lines 509-554), after the
404/403 guards: adds `request.amount` to `amount_paid` with no validation,
keeps the existing `payment_method` when `request.method` is not a valid
enum value (`except ValueError: pass`), then sets `payment_status` to
`pagado` when the new total reaches `total_price`, else `parcial` when it is
positive, else leaves it unchanged. -/
def confirm_payment (s : PaymentState) (amount : ℚ) (method : String) :
    PaymentState :=
  let new_paid := s.amount_paid.getD 0 + amount
  let new_method :=
    match parsePaymentMethod method with
    | some m => some m
    | none => s.payment_method
  let new_status :=
    if s.total_price ≤ new_paid then PaymentStatus.pagado
    else if 0 < new_paid then PaymentStatus.parcial
    else s.payment_status
  { amount_paid := some new_paid
    total_price := s.total_price
    payment_status := new_status
    payment_method := new_method }

/-! ## String helpers modelling Python primitives

The webhook heuristics (`src/backend/app/api/routes/webhooks.py`) work on
Python strings.  Strings are modelled through their character lists; the
helpers below mirror the Python primitives the source uses.  `Char.toLower`
and `Char.toUpper` act on ASCII letters only, which is exact for every input
the specification's claims mention. -/

/-- Python `str.lower()`. -/
def pyToLower (s : String) : String := ⟨s.data.map Char.toLower⟩

/-- Python `str.upper()`. -/
def pyToUpper (s : String) : String := ⟨s.data.map Char.toUpper⟩

/-- Does the second list start with the first? -/
def startsWithCL : List Char → List Char → Bool
  | [], _ => true
  | _ :: _, [] => false
  | a :: as, b :: bs => a == b && startsWithCL as bs

/-- Does the list contain the first list as a contiguous sublist? -/
def containsSubCL (needle : List Char) : List Char → Bool
  | [] => startsWithCL needle []
  | c :: cs => startsWithCL needle (c :: cs) || containsSubCL needle cs

/-- Python `needle in haystack` on strings. -/
def strContains (haystack needle : String) : Bool :=
  containsSubCL needle.data haystack.data

/-- Python `s.startswith(pre)`. -/
def strStartsWith (s pre : String) : Bool :=
  startsWithCL pre.data s.data

/-- Python `s[:n]`. -/
def strTake (s : String) (n : Nat) : String := ⟨s.data.take n⟩

/-- Python `str.strip()`. -/
def pyStrip (l : List Char) : List Char :=
  ((l.dropWhile (·.isWhitespace)).reverse.dropWhile (·.isWhitespace)).reverse

/-- Python `str.title()`: upper-case every letter that follows a non-letter,
lower-case the rest. -/
def pyTitleAux : Bool → List Char → List Char
  | _, [] => []
  | prevAlpha, c :: cs =>
      let c2 := if c.isAlpha then (if prevAlpha then c.toLower else c.toUpper) else c
      c2 :: pyTitleAux c.isAlpha cs

/-- Python truthiness of an optional string: `None` and `""` are falsy. -/
def isFalsy : Option String → Bool
  | none => true
  | some s => s == ""

/-- Python `a or b` on optional strings (left operand wins unless falsy). -/
def pyOr (a b : Option String) : Option String :=
  match a with
  | some s => if s = "" then b else some s
  | none => b

/-! ## Regex-based extraction (`src/backend/app/api/routes/webhooks.py`)

The source uses `re.search` with a handful of fixed-width patterns.  Every
quantified sub-pattern there (`\s*`, `[\s.-]?`, `\s+`, letter runs) is
followed by a character class disjoint from it, so the greedy regex match is
deterministic and is embedded as direct scanning functions.  `\w` (for
`\b` boundaries) is `[A-Za-z0-9_]` here, the ASCII core of Python's
word-character class. -/

/-- A `\w` word character (ASCII). -/
def isWordChar (c : Char) : Bool := c.isAlphanum || c = '_'

/-- `\b` before a word character: start of string or a non-word predecessor. -/
def boundaryBefore : Option Char → Bool
  | none => true
  | some c => !isWordChar c

/-- `\b` after a digit: end of string or a non-word successor. -/
def boundaryAfterDigits : List Char → Bool
  | [] => true
  | c :: _ => !isWordChar c

/-- Match exactly `n` digits at the head of the list, returning them and the
rest. -/
def takeDigits : Nat → List Char → Option (List Char × List Char)
  | 0, l => some ([], l)
  | _ + 1, [] => none
  | n + 1, c :: cs =>
      if c.isDigit then
        match takeDigits n cs with
        | some (d, rest) => some (c :: d, rest)
        | none => none
      else none

/-- Leftmost-match scan of `re.search`, feeding each position's preceding
character to the position matcher (for `\b`). -/
def searchWithPrev (m : Option Char → List Char → Option (List Char)) :
    Option Char → List Char → Option (List Char)
  | prev, [] => m prev []
  | prev, c :: cs =>
      match m prev (c :: cs) with
      | some r => some r
      | none => searchWithPrev m (some c) cs

/-- Pattern `\b3\d{9}\b` at one position. -/
def matchPhone10 (prev : Option Char) (l : List Char) : Option (List Char) :=
  if boundaryBefore prev then
    match l with
    | '3' :: rest =>
        match takeDigits 9 rest with
        | some (ds, rest2) =>
            if boundaryAfterDigits rest2 then some ('3' :: ds) else none
        | none => none
    | _ => none
  else none

/-- Shared tail `\s*3\d{9}\b` of the `+57`/`57` patterns; returns the
matched characters (whitespace run included, as `match.group()` does). -/
def matchPhoneTail (rest : List Char) : Option (List Char) :=
  let ws := rest.takeWhile (·.isWhitespace)
  let rest2 := rest.dropWhile (·.isWhitespace)
  match rest2 with
  | '3' :: rest3 =>
      match takeDigits 9 rest3 with
      | some (ds, rest4) =>
          if boundaryAfterDigits rest4 then some (ws ++ '3' :: ds) else none
      | none => none
  | _ => none

/-- Pattern `\b\+57\s*3\d{9}\b` at one position.  `+` is not a word
character, so the leading `\b` holds exactly when the preceding character is
a word character. -/
def matchPhonePlus57 (prev : Option Char) (l : List Char) : Option (List Char) :=
  if (match prev with | none => false | some c => isWordChar c) then
    match l with
    | '+' :: '5' :: '7' :: rest =>
        match matchPhoneTail rest with
        | some t => some ('+' :: '5' :: '7' :: t)
        | none => none
    | _ => none
  else none

/-- Pattern `\b57\s*3\d{9}\b` at one position. -/
def matchPhone57 (prev : Option Char) (l : List Char) : Option (List Char) :=
  if boundaryBefore prev then
    match l with
    | '5' :: '7' :: rest =>
        match matchPhoneTail rest with
        | some t => some ('5' :: '7' :: t)
        | none => none
    | _ => none
  else none

/-- A `[\s.-]` separator character. -/
def isSepChar (c : Char) : Bool := c.isWhitespace || c = '.' || c = '-'

/-- Consume an optional separator (`[\s.-]?`). -/
def takeOptSep : List Char → List Char × List Char
  | [] => ([], [])
  | c :: cs => if isSepChar c then ([c], cs) else ([], c :: cs)

/-- Pattern `\b\d{3}[\s.-]?\d{3}[\s.-]?\d{4}\b` at one position. -/
def matchPhoneGeneric (prev : Option Char) (l : List Char) :
    Option (List Char) :=
  if boundaryBefore prev then
    match takeDigits 3 l with
    | some (d1, r1) =>
        let (s1, r2) := takeOptSep r1
        match takeDigits 3 r2 with
        | some (d2, r3) =>
            let (s2, r4) := takeOptSep r3
            match takeDigits 4 r4 with
            | some (d3, r5) =>
                if boundaryAfterDigits r5 then
                  some (d1 ++ s1 ++ d2 ++ s2 ++ d3)
                else none
            | none => none
        | none => none
    | none => none
  else none

/-- The normalisation after a phone match in `extract_phone_from_text`:
`re.sub(r'[^\d+]', '', ...)` then the `+57` canonicalisation chain. -/
def normalizePhone (matched : List Char) : String :=
  let phone := matched.filter (fun c => c.isDigit || c = '+')
  if startsWithCL ['3'] phone ∧ phone.length = 10 then
    ⟨'+' :: '5' :: '7' :: phone⟩
  else if startsWithCL ['5', '7'] phone ∧ phone.length = 12 then
    ⟨'+' :: phone⟩
  else if startsWithCL ['+', '5', '7'] phone then ⟨phone⟩
  else ⟨phone⟩

/-- Embedding of `extract_phone_from_text`
(`src/backend/app/api/routes/webhooks.py` lines 86-109): spaces are removed
(`text.replace(" ", "")`), the four Colombian patterns are tried in order,
and the first match anywhere in the text is normalised. -/
def extract_phone_from_text (text : String) : Option String :=
  let stripped := text.data.filter (fun c => c ≠ ' ')
  match searchWithPrev matchPhone10 none stripped with
  | some m => some (normalizePhone m)
  | none =>
  match searchWithPrev matchPhonePlus57 none stripped with
  | some m => some (normalizePhone m)
  | none =>
  match searchWithPrev matchPhone57 none stripped with
  | some m => some (normalizePhone m)
  | none =>
  match searchWithPrev matchPhoneGeneric none stripped with
  | some m => some (normalizePhone m)
  | none => none

/-- A letter of the name character class `[A-Za-záéíóúñÁÉÍÓÚÑ]`. -/
def isNameLetter (c : Char) : Bool :=
  (('a' ≤ c && c ≤ 'z') || ('A' ≤ c && c ≤ 'Z')) ||
  ['á', 'é', 'í', 'ó', 'ú', 'ñ', 'Á', 'É', 'Í', 'Ó', 'Ú', 'Ñ'].contains c

/-- Strip a literal from the head of the list. -/
def dropLit (lit : String) : List Char → Option (List Char) :=
  go lit.data
where
  go : List Char → List Char → Option (List Char)
    | [], l => some l
    | _ :: _, [] => none
    | a :: as, b :: bs => if a == b then go as bs else none

/-- Capture group `([A-Za-z...]+(?:\s+[A-Za-z...]+)?)`: one letter run, and
greedily a second one after whitespace; the captured text keeps the
in-between whitespace, as `match.group(1)` does. -/
def matchNameGroup (l : List Char) : Option (List Char) :=
  let w1 := l.takeWhile isNameLetter
  if w1.isEmpty then none
  else
    let r2 := l.dropWhile isNameLetter
    let ws2 := r2.takeWhile (·.isWhitespace)
    let r3 := r2.dropWhile (·.isWhitespace)
    let w2 := r3.takeWhile isNameLetter
    if ws2.isEmpty || w2.isEmpty then some w1 else some (w1 ++ ws2 ++ w2)

/-- `\s+` then the capture group. -/
def matchNameTail (l : List Char) : Option (List Char) :=
  if (l.takeWhile (·.isWhitespace)).isEmpty then none
  else matchNameGroup (l.dropWhile (·.isWhitespace))

/-- Pattern `(?:mi nombre es|me llamo|soy)\s+(...)` at one position; the
three alternatives start with distinct characters, so trying them in order
is the regex's own behaviour. -/
def matchNamePat1 (l : List Char) : Option (List Char) :=
  match dropLit "mi nombre es" l with
  | some r => matchNameTail r
  | none =>
  match dropLit "me llamo" l with
  | some r => matchNameTail r
  | none =>
  match dropLit "soy" l with
  | some r => matchNameTail r
  | none => none

/-- Pattern `(?:nombre[:\s]+)(...)` at one position. -/
def matchNamePat2 (l : List Char) : Option (List Char) :=
  match dropLit "nombre" l with
  | some r =>
      if (r.takeWhile (fun c => c == ':' || c.isWhitespace)).isEmpty then none
      else matchNameGroup (r.dropWhile (fun c => c == ':' || c.isWhitespace))
  | none => none

/-- Leftmost-match scan for the boundary-free name patterns. -/
def searchPos (m : List Char → Option (List Char)) :
    List Char → Option (List Char)
  | [] => m []
  | c :: cs =>
      match m (c :: cs) with
      | some r => some r
      | none => searchPos m cs

/-- `match.group(1).strip().title()` kept only when longer than 2. -/
def nameFromMatch (g : List Char) : Option String :=
  let name : List Char := pyTitleAux false (pyStrip g)
  if 2 < name.length then some ⟨name⟩ else none

/-- Embedding of `extract_name_from_text`
(`src/backend/app/api/routes/webhooks.py` lines 112-128): both patterns are
tried in order against the lower-cased text; a match whose titled capture is
2 characters or shorter is discarded and the next pattern is tried. -/
def extract_name_from_text (text : String) : Option String :=
  let text_lower := (pyToLower text).data
  match searchPos matchNamePat1 text_lower with
  | some g =>
      match nameFromMatch g with
      | some n => some n
      | none => (searchPos matchNamePat2 text_lower).bind nameFromMatch
  | none => (searchPos matchNamePat2 text_lower).bind nameFromMatch

/-! ## Keyword heuristics (`src/backend/app/api/routes/webhooks.py`) -/

/-- `HIGH_INTEREST_KEYWORDS`, `src/backend/app/api/routes/webhooks.py`
lines 23-27. -/
def HIGH_INTEREST_KEYWORDS : List String :=
  ["quiero comprar", "necesito instalar", "cuánto cuesta", "precio",
   "agendar", "programar instalación", "me interesa", "quiero cotizar",
   "listo para", "puedo pagar", "disponibilidad", "cuando pueden"]

/-- `PRODUCT_KEYWORDS`, `src/backend/app/api/routes/webhooks.py`
lines 28-33 (insertion order of the Python dict). -/
def PRODUCT_KEYWORDS : List (String × List String) :=
  [("os566f", ["os566f", "os 566", "os566", "huella", "biométrica"]),
   ("os505", ["os505", "os 505", "manija", "básica"]),
   ("os600", ["os600", "os 600", "premium", "wifi"]),
   ("cerradura", ["cerradura", "chapa", "lock", "candado"])]

/-- Embedding of `calculate_interest_level`
(`src/backend/app/api/routes/webhooks.py` lines 143-159): one point per
keyword present in the lower-cased text, thresholded at 3 and 1. -/
def calculate_interest_level (text : String) : String :=
  let text_lower := pyToLower text
  let interest_score := HIGH_INTEREST_KEYWORDS.foldl
    (fun acc k => if strContains text_lower k then acc + 1 else acc) 0
  if 3 ≤ interest_score then "high"
  else if 1 ≤ interest_score then "medium"
  else "low"

/-- The number of distinct high-interest phrases occurring in the
lower-cased text — the score `calculate_interest_level` accumulates. -/
def interestHitCount (text : String) : Nat :=
  (HIGH_INTEREST_KEYWORDS.filter (fun k => strContains (pyToLower text) k)).length

/-- Embedding of `detect_product_interest`
(`src/backend/app/api/routes/webhooks.py` lines 131-140): first product (in
dict order) one of whose keywords occurs in the lower-cased text, upper-cased. -/
def detect_product_interest (text : String) : Option String :=
  let text_lower := pyToLower text
  PRODUCT_KEYWORDS.findSome? fun pk =>
    if pk.2.any (fun k => strContains text_lower k) then some (pyToUpper pk.1)
    else none

/-! ## Lead intake (`src/backend/app/api/routes/webhooks.py`,
`src/backend/app/crud/lead.py`) -/

/-- `LeadStatus` from `src/backend/app/models/lead.py`. -/
inductive LeadStatus
  | nuevo
  | en_conversacion
  | potencial
  | venta_cerrada
  | perdido
deriving DecidableEq, Repr

/-- Embedding of `determine_lead_status`
(`src/backend/app/api/routes/webhooks.py` lines 162-168). -/
def determine_lead_status (interest_level : String) (has_contact_info : Bool) :
    LeadStatus :=
  if interest_level = "high" ∧ has_contact_info then .potencial
  else if interest_level = "medium" ∨ has_contact_info then .en_conversacion
  else .nuevo

/-- One entry of a transcript message list (a JSON object with optional
`role`/`message`/`text` keys, or a bare string). -/
structure TranscriptMsg where
  role : Option String
  message : Option String
  text : Option String
deriving DecidableEq, Repr

/-- An element of a list-shaped transcript. -/
inductive TranscriptItem
  | msg (m : TranscriptMsg)
  | str (s : String)
deriving DecidableEq, Repr

/-- The shapes of `payload.transcript` that `format_transcript` handles:
JSON null, a plain string, a list of messages, or an object with a
`messages` array. -/
inductive TranscriptData
  | null
  | str (s : String)
  | list (items : List TranscriptItem)
  | dict (messages : List TranscriptItem)
deriving DecidableEq, Repr

/-- One line of the list branch of `format_transcript`. -/
def formatMsgLine : TranscriptItem → String
  | .msg m =>
      let role := m.role.getD "unknown"
      let message :=
        match m.message with
        | some s => s
        | none => m.text.getD ""
      let speaker := if role = "agent" then "Ana" else "Cliente"
      speaker ++ ": " ++ message
  | .str s => s

/-- Embedding of `format_transcript`
(`src/backend/app/api/routes/webhooks.py` lines 51-83). -/
def format_transcript : TranscriptData → String
  | .null => ""
  | .str s => s
  | .list items => String.intercalate "\n" (items.map formatMsgLine)
  | .dict messages => String.intercalate "\n" (messages.map formatMsgLine)

/-- `ElevenLabsAnalysisData` from `src/backend/app/schemas/lead.py`. -/
structure AnalysisData where
  customer_name : Option String
  customer_phone : Option String
  customer_email : Option String
  customer_address : Option String
  product_interest : Option String
  interest_level : Option String
  summary : Option String
deriving DecidableEq, Repr

/-- The fields of `ElevenLabsWebhookPayload` the handler reads.
`conversation_id` is modelled as present (the handler slices it with
`[:8]`); the optional fields model JSON-null/absent values; the
`collected_data`/`data_collection` dicts are association lists with
string values. -/
structure WebhookPayload where
  conversation_id : String
  analysis : Option AnalysisData
  collected_data : Option (List (String × String))
  data_collection : Option (List (String × String))
  customer_name : Option String
  customer_phone : Option String
  customer_email : Option String
  customer_address : Option String
  product_interest : Option String
  notes : Option String
  transcript : TranscriptData
deriving DecidableEq, Repr

/-- Python `dict.get(k)`. -/
def dictGet (d : List (String × String)) (k : String) : Option String :=
  (d.find? (fun p => p.1 == k)).map (·.2)

/-- The result dict of `analyze_conversation`. -/
structure ConversationAnalysis where
  name : Option String
  phone : Option String
  email : Option String
  address : Option String
  product_interest : Option String
  interest_level : String
  notes : Option String
deriving DecidableEq, Repr

/-- Embedding of `analyze_conversation`
(`src/backend/app/api/routes/webhooks.py` lines 171-234): precedence is
analysis block, then `collected_data or data_collection`, then top-level
payload fields, then regex extraction from the transcript; the interest
level falls back from the analysis block (`or "medium"`) and is computed
from the transcript only while still `"low"`. -/
def analyze_conversation (payload : WebhookPayload) : ConversationAnalysis :=
  let r : ConversationAnalysis := ⟨none, none, none, none, none, "low", none⟩
  let r :=
    match payload.analysis with
    | some a =>
        { r with
            name := a.customer_name
            phone := a.customer_phone
            email := a.customer_email
            address := a.customer_address
            product_interest := a.product_interest
            interest_level :=
              match a.interest_level with
              | some s => if s = "" then "medium" else s
              | none => "medium"
            notes := a.summary }
    | none => r
  let collected : List (String × String) :=
    match payload.collected_data with
    | some d => if d = [] then payload.data_collection.getD [] else d
    | none => payload.data_collection.getD []
  let r :=
    if collected ≠ [] then
      { r with
          name := pyOr (pyOr r.name (dictGet collected "customer_name"))
            (dictGet collected "name")
          phone := pyOr (pyOr r.phone (dictGet collected "customer_phone"))
            (dictGet collected "phone")
          email := pyOr (pyOr r.email (dictGet collected "customer_email"))
            (dictGet collected "email")
          address := pyOr (pyOr r.address (dictGet collected "customer_address"))
            (dictGet collected "address")
          product_interest := pyOr
            (pyOr r.product_interest (dictGet collected "product_interest"))
            (dictGet collected "product") }
    else r
  let r :=
    { r with
        name := pyOr r.name payload.customer_name
        phone := pyOr r.phone payload.customer_phone
        email := pyOr r.email payload.customer_email
        address := pyOr r.address payload.customer_address
        product_interest := pyOr r.product_interest payload.product_interest
        notes := pyOr r.notes payload.notes }
  let transcript_text := format_transcript payload.transcript
  if transcript_text ≠ "" then
    let r :=
      if isFalsy r.phone then
        { r with phone := extract_phone_from_text transcript_text }
      else r
    let r :=
      if isFalsy r.name then
        { r with name := extract_name_from_text transcript_text }
      else r
    let r :=
      if isFalsy r.product_interest then
        { r with product_interest := detect_product_interest transcript_text }
      else r
    if r.interest_level = "low" then
      { r with interest_level := calculate_interest_level transcript_text }
    else r
  else r

/-- The fields of a `leads` row the webhook handler reads or writes.
`id` models the autoincrement primary key. -/
structure Lead where
  id : Nat
  name : String
  phone : String
  email : Option String
  address : Option String
  source : String
  product_interest : Option String
  elevenlabs_conversation_id : Option String
  conversation_transcript : Option String
  notes : Option String
  status : LeadStatus
deriving DecidableEq, Repr

/-- `CRUDLead.get_by_elevenlabs_conversation`
(`src/backend/app/crud/lead.py` lines 61-72): first row whose
`elevenlabs_conversation_id` equals the id (SQL `=` is false on NULL). -/
def get_by_elevenlabs_conversation (db : List Lead) (conversation_id : String) :
    Option Lead :=
  db.find? (fun l => l.elevenlabs_conversation_id == some conversation_id)

/-- `CRUDLead.get_by_phone` (`src/backend/app/crud/lead.py` lines 15-17). -/
def get_by_phone (db : List Lead) (phone : String) : Option Lead :=
  db.find? (fun l => l.phone == phone)

/-- ORM mutation of the first row matching a phone. -/
def updateFirstByPhone (phone : String) (f : Lead → Lead) :
    List Lead → List Lead
  | [] => []
  | l :: ls =>
      if l.phone = phone then f l :: ls
      else l :: updateFirstByPhone phone f ls

/-- The existing-phone update branch of the webhook handler
(`src/backend/app/api/routes/webhooks.py` lines 307-321). -/
def updateLeadFromConversation (conversation_id transcript_text : String)
    (analysis : ConversationAnalysis) (l : Lead) : Lead :=
  let l := { l with
      elevenlabs_conversation_id := some conversation_id
      conversation_transcript := some transcript_text }
  let l :=
    if !isFalsy analysis.product_interest then
      { l with product_interest := analysis.product_interest }
    else l
  let l :=
    if !isFalsy analysis.notes then
      let newNotes := some (l.notes.getD "" ++ "\n[Ana] " ++ analysis.notes.getD "")
      { l with notes := newNotes }
    else l
  if analysis.interest_level = "high" && l.status == .nuevo then
    { l with status := .potencial }
  else l

/-- `CRUDLead.create_from_elevenlabs`
(`src/backend/app/crud/lead.py` lines 74-105): inserts a new row with
`source = "ana_voice"` and the conversation id recorded. -/
def create_from_elevenlabs (db : List Lead) (conversation_id name phone : String)
    (email address product_interest : Option String) (transcript : String)
    (notes : Option String) (status : LeadStatus) : List Lead × Lead :=
  let lead : Lead :=
    { id := db.length
      name := name
      phone := phone
      email := email
      address := address
      source := "ana_voice"
      product_interest := product_interest
      elevenlabs_conversation_id := some conversation_id
      conversation_transcript := some transcript
      notes := notes
      status := status }
  (db ++ [lead], lead)

/-- Embedding of the `elevenlabs_conversation_webhook` handler
(`src/backend/app/api/routes/webhooks.py` lines 237-344), after signature
verification and payload parsing: dedup on `conversation_id` first, then
placeholder data when neither phone nor name was extracted, then the
existing-phone update branch, then lead creation.  Returns the database
after the request and the lead serialised in the response. -/
def elevenlabs_conversation_webhook (db : List Lead) (payload : WebhookPayload) :
    List Lead × Lead :=
  match get_by_elevenlabs_conversation db payload.conversation_id with
  | some existing => (db, existing)
  | none =>
    let analysis0 := analyze_conversation payload
    let transcript_text := format_transcript payload.transcript
    let analysis :=
      if isFalsy analysis0.phone && isFalsy analysis0.name then
        { analysis0 with
            name := some "Cliente sin identificar"
            phone := some ("pendiente-" ++ strTake payload.conversation_id 8) }
      else analysis0
    let phoneOk := !isFalsy analysis.phone &&
      !strStartsWith (analysis.phone.getD "") "pendiente"
    match (if phoneOk then get_by_phone db (analysis.phone.getD "") else none) with
    | some existing_phone =>
        let updated := updateLeadFromConversation payload.conversation_id
          transcript_text analysis existing_phone
        (updateFirstByPhone (analysis.phone.getD "") (fun _ => updated) db,
         updated)
    | none =>
        let lead_status := determine_lead_status analysis.interest_level phoneOk
        create_from_elevenlabs db payload.conversation_id
          (match analysis.name with
           | some n => if n = "" then "Cliente de Ana" else n
           | none => "Cliente de Ana")
          (match analysis.phone with
           | some p =>
               if p = "" then "pendiente-" ++ strTake payload.conversation_id 8
               else p
           | none => "pendiente-" ++ strTake payload.conversation_id 8)
          analysis.email analysis.address analysis.product_interest
          transcript_text analysis.notes lead_status

/-! ## Concrete fixtures from the specification's scenarios -/

/-- The transcript of the spec's webhook scenario (§8 of the spec). -/
def scenario_transcript : String :=
  "mi nombre es Juan... 3001234567... quiero comprar, necesito instalar, precio"

/-- The spec scenario's payload: no structured fields, only the transcript. -/
def scenario_payload : WebhookPayload :=
  { conversation_id := "conv-123"
    analysis := none
    collected_data := none
    data_collection := none
    customer_name := none
    customer_phone := none
    customer_email := none
    customer_address := none
    product_interest := none
    notes := none
    transcript := .str scenario_transcript }

/-- A lead row created by a previously processed conversation `"conv-1"`. -/
def processed_lead : Lead :=
  { id := 0
    name := "Juan"
    phone := "+573001234567"
    email := none
    address := none
    source := "ana_voice"
    product_interest := none
    elevenlabs_conversation_id := some "conv-1"
    conversation_transcript := some scenario_transcript
    notes := none
    status := .potencial }

/-- A redelivery of the webhook event for conversation `"conv-1"`. -/
def redelivered_payload : WebhookPayload :=
  { conversation_id := "conv-1"
    analysis := none
    collected_data := none
    data_collection := none
    customer_name := none
    customer_phone := none
    customer_email := none
    customer_address := none
    product_interest := none
    notes := none
    transcript := .str scenario_transcript }

/-! ## Theorems -/

/-- Counting fold used by `calculate_interest_level` equals a filter length. -/
theorem foldl_count_eq_filter_length {α : Type} (p : α → Bool) (l : List α)
    (n : Nat) :
    l.foldl (fun acc k => if p k then acc + 1 else acc) n =
      n + (l.filter p).length := by
  induction l generalizing n with
  | nil => simp
  | cons a as ih =>
    by_cases h : p a
    · simp only [List.foldl_cons, if_pos h, ih, List.filter_cons_of_pos h,
        List.length_cons]
      omega
    · simp [h, ih]

/-- C1, counterexample: an `ajuste` movement through the manual-movements
endpoint on a product with stock 3 and quantity 10 succeeds and writes a
ledger row with `stock_before = 3`, `quantity = -10`, `stock_after = 10`,
which violates `stock_after = stock_before + quantity`. -/
theorem C1_counterexample :
    create_inventory_movement ⟨3, []⟩ .ajuste 10 =
      .ok (⟨10, [⟨.ajuste, -10, 3, 10⟩]⟩, ⟨.ajuste, -10, 3, 10⟩) ∧
    (10 : Int) ≠ 3 + (-10) := by decide

/-- C1, amended: the ledger row of every successful entry movement with a
nonnegative requested quantity, of every successful exit movement, and of
every adjust-stock call satisfies `stock_after = stock_before + quantity`,
and the product's stock afterwards equals `stock_after`; the amendment
excludes `ajuste` rows written by the manual-movements endpoint, whose
recorded quantity is `-abs(quantity)` while the stock is set to `quantity`,
and entry movements with a negative requested quantity, whose recorded
quantity is the raw negative value while `abs(quantity)` is added. -/
theorem C1_ledger_invariant_amended (s : InvState) (q : Int) :
    (0 ≤ q → ∀ s2 row, create_inventory_movement s .entrada q = .ok (s2, row) →
      row.stock_after = row.stock_before + row.quantity ∧
      s2.stock = row.stock_after) ∧
    (∀ s2 row, create_inventory_movement s .salida q = .ok (s2, row) →
      row.stock_after = row.stock_before + row.quantity ∧
      s2.stock = row.stock_after) ∧
    (∀ s2 row, adjust_stock s q = .ok (s2, row) →
      row.stock_after = row.stock_before + row.quantity ∧
      s2.stock = row.stock_after) := by
  refine ⟨?_, ?_, ?_⟩
  · intro hq s2 row h
    simp only [create_inventory_movement, Except.ok.injEq, Prod.mk.injEq] at h
    obtain ⟨h1, h2⟩ := h
    subst h1 h2
    simp [abs_of_nonneg hq]
  · intro s2 row h
    simp only [create_inventory_movement] at h
    split at h
    · exact absurd h (by simp)
    · simp only [Except.ok.injEq, Prod.mk.injEq] at h
      obtain ⟨h1, h2⟩ := h
      subst h1 h2
      constructor
      · simp
        ring
      · simp
  · intro s2 row h
    simp only [adjust_stock, Except.ok.injEq, Prod.mk.injEq] at h
    obtain ⟨h1, h2⟩ := h
    subst h1 h2
    constructor <;> simp

/-- Witness for C1 (amended), at stock 5 and an entry of 2. -/
theorem C1_ledger_invariant_amended_witness :
    (0 : Int) ≤ 2 ∧
    create_inventory_movement ⟨5, []⟩ .entrada 2 =
      .ok (⟨7, [⟨.entrada, 2, 5, 7⟩]⟩, ⟨.entrada, 2, 5, 7⟩) ∧
    ((⟨.entrada, 2, 5, 7⟩ : MovementRow).stock_after =
      (⟨.entrada, 2, 5, 7⟩ : MovementRow).stock_before +
        (⟨.entrada, 2, 5, 7⟩ : MovementRow).quantity) :=
  ⟨by decide, by decide,
    ((C1_ledger_invariant_amended ⟨5, []⟩ 2).1 (by decide)
      ⟨7, [⟨.entrada, 2, 5, 7⟩]⟩ ⟨.entrada, 2, 5, 7⟩ (by decide)).1⟩

/-- C2, counterexample: the adjust-stock endpoint on a product with stock 3
and a requested new stock of −2 does not fail — it sets the stock to −2 and
writes a ledger row. -/
theorem C2_counterexample :
    adjust_stock ⟨3, []⟩ (-2) =
      .ok (⟨-2, [⟨.ajuste, -5, 3, -2⟩]⟩, ⟨.ajuste, -5, 3, -2⟩) ∧
    (-2 : Int) < 0 := by decide

/-- C2, amended: an exit movement whose resulting stock would be negative
fails with `InsufficientStock` and leaves the state unchanged (stock intact,
no ledger row); in particular an exit of 5 units on stock 3 fails and stock
stays 3.  Stock adjustments, by contrast, are not guarded: adjusting to a
negative value succeeds, sets the stock negative and writes a ledger row. -/
theorem C2_exit_insufficient_amended (s : InvState) (q : Int)
    (h : s.stock - |q| < 0) :
    create_inventory_movement s .salida q = .error .insufficientStock ∧
    runMovement s .salida q = s := by
  constructor
  · simp [create_inventory_movement, h]
  · simp [runMovement, create_inventory_movement, h]

/-- Witness for C2 (amended): the spec scenario, an exit of 5 on stock 3. -/
theorem C2_exit_insufficient_amended_witness :
    ((⟨3, []⟩ : InvState).stock - |(5 : Int)| < 0) ∧
    create_inventory_movement ⟨3, []⟩ .salida 5 = .error .insufficientStock ∧
    runMovement ⟨3, []⟩ .salida 5 = ⟨3, []⟩ :=
  ⟨by decide, (C2_exit_insufficient_amended ⟨3, []⟩ 5 (by decide)).1,
    (C2_exit_insufficient_amended ⟨3, []⟩ 5 (by decide)).2⟩

/-- C3: stopping the timer of an installation whose timer was never started
(`timer_started_at` null) or already stopped (`timer_ended_at` set) fails
with one of the two 400 invalid-state errors, and the installation row is
unchanged. -/
theorem C3_stop_timer_invalid_state (now : Int) (tid : Nat)
    (inst : Installation) (hauth : inst.technician_id = some tid)
    (h : inst.timer_started_at = none ∨ inst.timer_ended_at ≠ none) :
    (stop_timer_endpoint now tid inst = .error .notStarted ∨
      stop_timer_endpoint now tid inst = .error .alreadyStopped) ∧
    runStopTimer now tid inst = inst := by
  rcases h with h | h
  · have he : stop_timer_endpoint now tid inst = .error .notStarted := by
      simp [stop_timer_endpoint, hauth, h]
    exact ⟨Or.inl he, by simp [runStopTimer, he]⟩
  · by_cases hs : inst.timer_started_at = none
    · have he : stop_timer_endpoint now tid inst = .error .notStarted := by
        simp [stop_timer_endpoint, hauth, hs]
      exact ⟨Or.inl he, by simp [runStopTimer, he]⟩
    · have he : stop_timer_endpoint now tid inst = .error .alreadyStopped := by
        simp [stop_timer_endpoint, hauth, hs, h]
      exact ⟨Or.inr he, by simp [runStopTimer, he]⟩

/-- Witness for C3: a scheduled installation whose timer was never started. -/
theorem C3_stop_timer_invalid_state_witness :
    (⟨some 1, .programada, none, none, none, none⟩ : Installation).technician_id
        = some 1 ∧
    ((stop_timer_endpoint 0 1 ⟨some 1, .programada, none, none, none, none⟩ =
        .error .notStarted ∨
      stop_timer_endpoint 0 1 ⟨some 1, .programada, none, none, none, none⟩ =
        .error .alreadyStopped) ∧
     runStopTimer 0 1 ⟨some 1, .programada, none, none, none, none⟩ =
       ⟨some 1, .programada, none, none, none, none⟩) :=
  ⟨by decide,
    C3_stop_timer_invalid_state 0 1 _ (by decide) (Or.inl (by decide))⟩

/-- C4, code bug: the claim — and the source's own comment, `"Timer already
running, return current status"` — says a second start call on a running
timer returns the current timer state without erroring, but evaluating the
endpoint at such an installation (timer started at 0 by `"technician"`,
not ended) shows the already-running branch fails with the serialisation
`AttributeError` instead of returning the state; no write ever happens in
that branch, so the stored row is unchanged, but the call errors. -/
theorem C4_second_start_attribute_error :
    start_timer_endpoint 50 1
        ⟨some 1, .en_progreso, some 0, none, some "technician", none⟩ =
      .error .attributeError := by decide

/-- C5: stopping a running timer at time `now ≥ t0` records
`timer_ended_at = now`, keeps `timer_started_by`, and stores as duration the
floor in whole minutes of the elapsed seconds (the two inequalities pin the
stored value as that floor). -/
theorem C5_stop_timer_duration (now t0 : Int) (tid : Nat)
    (inst : Installation) (hauth : inst.technician_id = some tid)
    (hs : inst.timer_started_at = some t0)
    (he : inst.timer_ended_at = none) (hd : t0 ≤ now) :
    ∃ out, stop_timer_endpoint now tid inst = .ok out ∧
      out.installation_duration_minutes = some ((now - t0).tdiv 60) ∧
      60 * ((now - t0).tdiv 60) ≤ now - t0 ∧
      now - t0 < 60 * ((now - t0).tdiv 60) + 60 ∧
      out.timer_ended_at = some now ∧
      out.timer_started_by = inst.timer_started_by := by
  have hne : inst.timer_started_at ≠ none := by simp [hs]
  refine ⟨crudStopTimer now inst, ?_, ?_, ?_, ?_, ?_, ?_⟩
  · simp [stop_timer_endpoint, hauth, hne, he]
  · simp [crudStopTimer, hne, he, hs]
  · have h0 : (0 : Int) ≤ now - t0 := by omega
    rw [Int.tdiv_eq_ediv h0 (by norm_num)]
    omega
  · have h0 : (0 : Int) ≤ now - t0 := by omega
    rw [Int.tdiv_eq_ediv h0 (by norm_num)]
    omega
  · simp [crudStopTimer, hne, he, hs]
  · simp [crudStopTimer, hne, he, hs]

/-- Witness for C5: the spec scenario — started at T0 = 0 by `"technician"`,
stopped 37 minutes (2220 s) later, stored duration 37. -/
theorem C5_stop_timer_duration_witness :
    (0 : Int) ≤ 2220 ∧
    stop_timer_endpoint 2220 1
        ⟨some 1, .en_progreso, some 0, none, some "technician", none⟩ =
      .ok ⟨some 1, .en_progreso, some 0, some 2220, some "technician",
        some 37⟩ ∧
    (∃ out, stop_timer_endpoint 2220 1
        ⟨some 1, .en_progreso, some 0, none, some "technician", none⟩ =
          .ok out ∧
      out.installation_duration_minutes = some ((2220 - 0 : Int).tdiv 60) ∧
      60 * ((2220 - 0 : Int).tdiv 60) ≤ 2220 - 0 ∧
      (2220 - 0 : Int) < 60 * ((2220 - 0 : Int).tdiv 60) + 60 ∧
      out.timer_ended_at = some 2220 ∧
      out.timer_started_by =
        (⟨some 1, .en_progreso, some 0, none, some "technician", none⟩ :
          Installation).timer_started_by) :=
  ⟨by decide, by decide,
    C5_stop_timer_duration 2220 0 1 _ (by decide) (by decide) (by decide)
      (by decide)⟩

/-- C6, counterexample: starting the timer of a cancelled installation
succeeds and moves its status to `en_progreso` — the source only preserves
`en_progreso` and `completada`, not `cancelada`. -/
theorem C6_counterexample :
    start_timer_endpoint 100 1 ⟨some 1, .cancelada, none, none, none, none⟩ =
      .ok ⟨some 1, .en_progreso, some 100, none, some "technician", none⟩ ∧
    InstallationStatus.en_progreso ≠ .cancelada := by decide

/-- C6, amended: a start-timer call that actually starts the timer (no
running timer) sets the status to `en_progreso` unless it is already
`completada`; a completed installation keeps `completada`, but a cancelled
installation does not keep `cancelada` — its status becomes `en_progreso`. -/
theorem C6_start_timer_status_amended (now : Int) (tid : Nat)
    (inst : Installation) (hauth : inst.technician_id = some tid)
    (hnotrun : inst.timer_started_at = none ∨ inst.timer_ended_at ≠ none) :
    ∃ out, start_timer_endpoint now tid inst = .ok out ∧
      out.status =
        if inst.status = .completada then .completada else .en_progreso := by
  refine ⟨crudStartTimer now "technician" inst, ?_, ?_⟩
  · rcases hnotrun with h | h
    · simp [start_timer_endpoint, hauth, h]
    · simp [start_timer_endpoint, hauth, h]
  · simp only [crudStartTimer, if_pos hnotrun]
    by_cases hc : inst.status = .completada
    · simp [hc]
    · by_cases hp : inst.status = .en_progreso
      · simp [hp, hc]
      · simp [hp, hc]

/-- Witness for C6 (amended): a cancelled installation's status becomes
`en_progreso` on start. -/
theorem C6_start_timer_status_amended_witness :
    ((⟨some 1, .cancelada, none, none, none, none⟩ :
        Installation).timer_started_at = none ∨
      (⟨some 1, .cancelada, none, none, none, none⟩ :
        Installation).timer_ended_at ≠ none) ∧
    (∃ out, start_timer_endpoint 7 1
        ⟨some 1, .cancelada, none, none, none, none⟩ = .ok out ∧
      out.status =
        if (⟨some 1, .cancelada, none, none, none, none⟩ :
            Installation).status = .completada then .completada
        else .en_progreso) :=
  ⟨Or.inl (by decide),
    C6_start_timer_status_amended 7 1 _ (by decide) (Or.inl (by decide))⟩

/-- C7: the webhook is idempotent on `conversation_id` — when some lead
already carries the payload's conversation id, the handler returns that
lead and the lead table is unchanged (no second lead is created). -/
theorem C7_webhook_idempotent (db : List Lead) (payload : WebhookPayload)
    (lead : Lead)
    (h : get_by_elevenlabs_conversation db payload.conversation_id = some lead) :
    elevenlabs_conversation_webhook db payload = (db, lead) := by
  unfold elevenlabs_conversation_webhook
  rw [h]

/-- Witness for C7: redelivering conversation `"conv-1"` returns the lead it
created and leaves the table as it was. -/
theorem C7_webhook_idempotent_witness :
    get_by_elevenlabs_conversation [processed_lead]
        redelivered_payload.conversation_id = some processed_lead ∧
    elevenlabs_conversation_webhook [processed_lead] redelivered_payload =
      ([processed_lead], processed_lead) :=
  ⟨by decide, C7_webhook_idempotent [processed_lead] redelivered_payload
    processed_lead (by decide)⟩

/-- C8: for every transcript text, the interest level is determined by the
number of high-interest keywords occurring in the lower-cased text —
`"high"` exactly when at least 3 occur, `"medium"` exactly when 1 or 2
occur, `"low"` exactly when none occurs, and no other value is returned. -/
theorem C8_interest_level_thresholds (text : String) :
    (calculate_interest_level text = "high" ↔ 3 ≤ interestHitCount text) ∧
    (calculate_interest_level text = "medium" ↔
      1 ≤ interestHitCount text ∧ interestHitCount text < 3) ∧
    (calculate_interest_level text = "low" ↔ interestHitCount text = 0) ∧
    (calculate_interest_level text = "high" ∨
      calculate_interest_level text = "medium" ∨
      calculate_interest_level text = "low") := by
  have hc : calculate_interest_level text =
      if 3 ≤ interestHitCount text then "high"
      else if 1 ≤ interestHitCount text then "medium" else "low" := by
    simp only [calculate_interest_level, interestHitCount]
    rw [foldl_count_eq_filter_length]
    simp
  rw [hc]
  split_ifs with h3 h1
  · exact ⟨iff_of_true rfl h3, iff_of_false (by decide) (by omega),
      iff_of_false (by decide) (by omega), Or.inl rfl⟩
  · exact ⟨iff_of_false (by decide) h3, iff_of_true rfl ⟨h1, by omega⟩,
      iff_of_false (by decide) (by omega), Or.inr (Or.inl rfl)⟩
  · exact ⟨iff_of_false (by decide) h3, iff_of_false (by decide) (by omega),
      iff_of_true rfl (by omega), Or.inr (Or.inr rfl)⟩

set_option maxRecDepth 40000 in
/-- C9: on the spec scenario payload — no structured fields, transcript
`"mi nombre es Juan... 3001234567... quiero comprar, necesito instalar,
precio"` — the conversation analysis extracts name `"Juan"`, phone
normalised to `"+573001234567"`, and interest level `"high"`, with exactly
3 keyword hits. -/
theorem C9_scenario_analysis :
    (analyze_conversation scenario_payload).name = some "Juan" ∧
    (analyze_conversation scenario_payload).phone = some "+573001234567" ∧
    (analyze_conversation scenario_payload).interest_level = "high" ∧
    interestHitCount scenario_transcript = 3 := by decide

/-- C10: `confirm_payment` adds the request amount to `amount_paid`
unconditionally (no positivity validation); the new status is `pagado` when
the new total reaches `total_price`, `parcial` when it is positive but short
of the total, and unchanged otherwise; an unrecognised method string leaves
`payment_method` untouched; `total_price` is never modified. -/
theorem C10_confirm_payment_behaviour (s : PaymentState) (amount : ℚ)
    (method : String) :
    (confirm_payment s amount method).amount_paid =
      some (s.amount_paid.getD 0 + amount) ∧
    (s.total_price ≤ s.amount_paid.getD 0 + amount →
      (confirm_payment s amount method).payment_status = .pagado) ∧
    (s.amount_paid.getD 0 + amount < s.total_price ∧
        0 < s.amount_paid.getD 0 + amount →
      (confirm_payment s amount method).payment_status = .parcial) ∧
    (s.amount_paid.getD 0 + amount < s.total_price ∧
        s.amount_paid.getD 0 + amount ≤ 0 →
      (confirm_payment s amount method).payment_status = s.payment_status) ∧
    (parsePaymentMethod method = none →
      (confirm_payment s amount method).payment_method = s.payment_method) ∧
    (confirm_payment s amount method).total_price = s.total_price := by
  refine ⟨rfl, ?_, ?_, ?_, ?_, rfl⟩
  · intro h
    simp [confirm_payment, h]
  · intro ⟨h1, h2⟩
    simp [confirm_payment, not_le.mpr h1, h2]
  · intro ⟨h1, h2⟩
    simp [confirm_payment, not_le.mpr h1, not_lt.mpr h2]
  · intro h
    simp [confirm_payment, h]

/-- Witness for C10: a 40 payment on 10 already paid of a 100 total with an
unknown method `"bitcoin"` yields `parcial` and keeps the method unset. -/
theorem C10_confirm_payment_behaviour_witness :
    ((⟨some 10, 100, .pendiente, none⟩ : PaymentState).amount_paid.getD 0 + 40 <
        (⟨some 10, 100, .pendiente, none⟩ : PaymentState).total_price ∧
      (0 : ℚ) <
        (⟨some 10, 100, .pendiente, none⟩ : PaymentState).amount_paid.getD 0 + 40) ∧
    parsePaymentMethod "bitcoin" = none ∧
    (confirm_payment ⟨some 10, 100, .pendiente, none⟩ 40 "bitcoin").payment_status
        = .parcial ∧
    (confirm_payment ⟨some 10, 100, .pendiente, none⟩ 40 "bitcoin").payment_method
        = none :=
  ⟨⟨by norm_num, by norm_num⟩, by decide,
    (C10_confirm_payment_behaviour ⟨some 10, 100, .pendiente, none⟩ 40
      "bitcoin").2.2.1 ⟨by norm_num, by norm_num⟩,
    (C10_confirm_payment_behaviour ⟨some 10, 100, .pendiente, none⟩ 40
      "bitcoin").2.2.2.2.1 (by decide)⟩

end Zafesys
